import Mathlib

/-!
Shallow embedding of the analytics pipeline of `src/dashboard/streamlit_app.py`
(e-commerce dashboard: loading, joins, and the three groupby aggregations),
together with theorems settling the specification claims about it.

Modelling conventions:
* a pandas DataFrame is a `List` of typed rows (structures below);
* a nullable column is an `Option`; pandas drops null keys in `groupby` and
  skips nulls in `mean`/`count`, which the definitions reproduce explicitly;
* timestamps are integers (seconds); `pd.Timedelta.days` is floored division
  by 86400 seconds, i.e. `Int.fdiv _ 86400`;
* prices, review scores and means are rationals (`ℚ`);
* `df.merge(other, on=k)` (inner) pairs each left row with every matching
  right row; `how='left'` keeps a left row with nulls when nothing matches;
* `groupby(k).agg(...)` enumerates the distinct non-null keys (`dedup` of the
  key column) and aggregates the rows of each key.
-/

namespace Dashboard

/-- A row of `orders_dataset.csv` after the date conversion in `load_data`
(only the columns the aggregations read). `order_purchase_timestamp` is
non-null in every code path used; `order_delivered_customer_date` is nullable
(order not yet delivered). -/
structure Order where
  order_id : String
  customer_id : String
  order_purchase_timestamp : Int
  order_delivered_customer_date : Option Int
deriving DecidableEq

/-- A row of `order_items_dataset.csv`. -/
structure OrderItem where
  order_id : String
  product_id : String
  seller_id : String
  price : ℚ
deriving DecidableEq

/-- A row of `products_dataset.csv` (the columns the spec's loader touches). -/
structure Product where
  product_id : String
  product_category_name : Option String
  product_weight_g : Option ℚ
  product_length_cm : Option ℚ
  product_height_cm : Option ℚ
  product_width_cm : Option ℚ
deriving DecidableEq

/-- A row of `sellers_dataset.csv`. -/
structure Seller where
  seller_id : String
  seller_state : Option String
deriving DecidableEq

/-- A row of `order_reviews_dataset.csv` (an order may have 0, 1 or several
review rows; a review's score may itself be null in the raw file). -/
structure Review where
  order_id : String
  review_score : Option ℚ
deriving DecidableEq

/-- A row of `customers_dataset.csv`. -/
structure Customer where
  customer_id : String
  customer_unique_id : String
deriving DecidableEq

/-- Mean of a list of rationals, undefined (`none`) on the empty list —
pandas `mean` over an all-null / empty column is `NaN`. -/
def mean? (xs : List ℚ) : Option ℚ :=
  if xs.isEmpty then none else some (xs.sum / xs.length)

/- ## Category view (lines 68-70)

`merged_df = order_items_df.merge(orders_df, on='order_id')`
`merged_df = merged_df.merge(order_reviews_df[['order_id','review_score']], on='order_id', how='left')`
`merged_df = merged_df.merge(products_df[['product_id','product_category_name']], on='product_id', how='left')`
-/

/-- A row of the joined category view. -/
structure CatRow where
  item : OrderItem
  ordr : Order
  review_score : Option ℚ
  product_category_name : Option String
deriving DecidableEq

/-- `order_items_df.merge(orders_df, on='order_id')` — inner join. -/
def mergeItemsOrders (items : List OrderItem) (orders : List Order) :
    List (OrderItem × Order) :=
  items.flatMap fun it =>
    (orders.filter fun o => o.order_id = it.order_id).map fun o => (it, o)

/-- Left-join expansion of one (item, order) row against the reviews table:
no matching review keeps the row once with a null score, `k` matching reviews
duplicate it `k` times. -/
def scoreMatches (reviews : List Review) (r : OrderItem × Order) :
    List (OrderItem × Order × Option ℚ) :=
  if (reviews.filter fun v => v.order_id = r.1.order_id).isEmpty then [(r.1, r.2, none)]
  else (reviews.filter fun v => v.order_id = r.1.order_id).map fun v =>
    (r.1, r.2, v.review_score)

/-- `.merge(order_reviews_df[['order_id','review_score']], on='order_id', how='left')`. -/
def leftJoinReviews (rows : List (OrderItem × Order)) (reviews : List Review) :
    List (OrderItem × Order × Option ℚ) :=
  rows.flatMap (scoreMatches reviews)

/-- Left-join expansion of one row against the products table: an item whose
product is missing keeps the row with a null category. -/
def categoryMatches (products : List Product) (r : OrderItem × Order × Option ℚ) :
    List CatRow :=
  if (products.filter fun p => p.product_id = r.1.product_id).isEmpty then
    [⟨r.1, r.2.1, r.2.2, none⟩]
  else (products.filter fun p => p.product_id = r.1.product_id).map fun p =>
    ⟨r.1, r.2.1, r.2.2, p.product_category_name⟩

/-- `.merge(products_df[['product_id','product_category_name']], on='product_id', how='left')`. -/
def leftJoinProducts (rows : List (OrderItem × Order × Option ℚ))
    (products : List Product) : List CatRow :=
  rows.flatMap (categoryMatches products)

/-- The full joined `merged_df` of the category analysis. -/
def categoryView (items : List OrderItem) (orders : List Order)
    (reviews : List Review) (products : List Product) : List CatRow :=
  leftJoinProducts (leftJoinReviews (mergeItemsOrders items orders) reviews) products

/-- An output row of the category aggregation. -/
structure CatPerf where
  product_category_name : String
  total_sales : ℚ
  average_rating : Option ℚ
  order_count : Nat
deriving DecidableEq

/-- The rows of the view belonging to one category group. -/
def catRows (view : List CatRow) (c : String) : List CatRow :=
  view.filter fun r => r.product_category_name = some c

/-- `merged_df.groupby('product_category_name').agg(total_sales=('price','sum'),
average_rating=('review_score','mean'), order_count=('order_id','count'))`
(lines 73-77): one row per distinct non-null category; `count` counts the
(never-null) `order_id` entries, i.e. the group's rows; `mean` skips null
scores. -/
def category_performance (view : List CatRow) : List CatPerf :=
  (view.filterMap fun r => r.product_category_name).dedup.map fun c =>
    { product_category_name := c
      total_sales := ((catRows view c).map fun r => r.item.price).sum
      average_rating := mean? ((catRows view c).filterMap fun r => r.review_score)
      order_count := (catRows view c).length }

/- ## Delivery view (lines 122-136)

`logistics_df = order_items_df.merge(orders_df[['order_id','order_delivered_customer_date','order_purchase_timestamp']], on='order_id')`
`logistics_df = logistics_df.merge(sellers_df[['seller_id','seller_state']], on='seller_id', how='left')`
`logistics_df['delivery_time_days'] = (logistics_df['order_delivered_customer_date'] - logistics_df['order_purchase_timestamp']).dt.days`
-/

/-- A row of the joined logistics view. -/
structure DelRow where
  item : OrderItem
  order_delivered_customer_date : Option Int
  order_purchase_timestamp : Int
  seller_state : Option String
deriving DecidableEq

/-- Left-join expansion of one (item ⋈ order) row against the sellers table. -/
def stateMatches (sellers : List Seller) (r : OrderItem × Order) : List DelRow :=
  if (sellers.filter fun s => s.seller_id = r.1.seller_id).isEmpty then
    [⟨r.1, r.2.order_delivered_customer_date, r.2.order_purchase_timestamp, none⟩]
  else (sellers.filter fun s => s.seller_id = r.1.seller_id).map fun s =>
    ⟨r.1, r.2.order_delivered_customer_date, r.2.order_purchase_timestamp, s.seller_state⟩

/-- The full joined `logistics_df`. -/
def logisticsView (items : List OrderItem) (orders : List Order)
    (sellers : List Seller) : List DelRow :=
  (mergeItemsOrders items orders).flatMap (stateMatches sellers)

/-- `(order_delivered_customer_date - order_purchase_timestamp).dt.days`:
`pd.Timedelta.days` floors to whole days; a null delivery date (`NaT`) gives a
null difference. -/
def delivery_time_days (r : DelRow) : Option Int :=
  r.order_delivered_customer_date.map fun d =>
    Int.fdiv (d - r.order_purchase_timestamp) 86400

/-- An output row of the delivery aggregation. -/
structure StatePerf where
  seller_state : String
  average_delivery_time : Option ℚ
  total_orders : Nat
deriving DecidableEq

/-- The rows of the logistics view belonging to one state group. -/
def stateRows (view : List DelRow) (s : String) : List DelRow :=
  view.filter fun r => r.seller_state = some s

/-- `logistics_df.groupby('seller_state').agg(average_delivery_time=('delivery_time_days','mean'),
total_orders=('order_id','count'))` (lines 133-136): null states are dropped
by `groupby`, null delivery times are skipped by `mean` (an all-null group
averages to `NaN`), and `count` counts the group's (never-null) `order_id`
entries. -/
def state_delivery_performance (view : List DelRow) : List StatePerf :=
  (view.filterMap fun r => r.seller_state).dedup.map fun s =>
    { seller_state := s
      average_delivery_time :=
        mean? (((stateRows view s).filterMap delivery_time_days).map fun n : Int => (n : ℚ))
      total_orders := (stateRows view s).length }

/- ## RFM view (lines 175-183)

`rfm_df = orders_df.merge(order_items_df, on='order_id')`
`rfm_df = rfm_df.merge(customers_df, on='customer_id')`
`reference_date = rfm_df['order_purchase_timestamp'].max() + timedelta(days=1)`
-/

/-- A row of the joined RFM view. -/
structure RfmRow where
  ordr : Order
  item : OrderItem
  cust : Customer
deriving DecidableEq

/-- `orders_df.merge(order_items_df, on='order_id')` — inner join. -/
def mergeOrdersItems (orders : List Order) (items : List OrderItem) :
    List (Order × OrderItem) :=
  orders.flatMap fun o =>
    (items.filter fun it => it.order_id = o.order_id).map fun it => (o, it)

/-- `.merge(customers_df, on='customer_id')` — inner join. -/
def rfmView (orders : List Order) (items : List OrderItem)
    (customers : List Customer) : List RfmRow :=
  (mergeOrdersItems orders items).flatMap fun r =>
    (customers.filter fun cu => cu.customer_id = r.1.customer_id).map fun cu =>
      ⟨r.1, r.2, cu⟩

/-- Maximum of a list of integers (`Series.max`); junk value 0 on the empty
list, never used because every aggregation over an empty view is empty. -/
def maxInt : List Int → Int
  | [] => 0
  | [t] => t
  | t :: t' :: ts => max t (maxInt (t' :: ts))

/-- `reference_date = rfm_df['order_purchase_timestamp'].max() + timedelta(days=1)`
(line 178), one day being 86400 seconds. -/
def reference_date (view : List RfmRow) : Int :=
  maxInt (view.map fun r => r.ordr.order_purchase_timestamp) + 86400

/-- An output row of the RFM aggregation. -/
structure RfmRecord where
  customer_unique_id : String
  Recency : Int
  Frequency : Nat
  Monetary : ℚ
deriving DecidableEq

/-- The rows of the RFM view belonging to one customer group. -/
def custRows (view : List RfmRow) (u : String) : List RfmRow :=
  view.filter fun r => r.cust.customer_unique_id = u

/-- `rfm_df.groupby('customer_unique_id').agg(Recency=..., Frequency=('order_id','nunique'),
Monetary=('price','sum'))` (lines 179-183): `Recency` is
`(reference_date - x.max()).days` (floored whole days), `Frequency` the number
of distinct order ids of the group, `Monetary` the sum of the group's prices. -/
def rfm_table (view : List RfmRow) : List RfmRecord :=
  (view.map fun r => r.cust.customer_unique_id).dedup.map fun u =>
    { customer_unique_id := u
      Recency :=
        Int.fdiv (reference_date view -
          maxInt ((custRows view u).map fun r => r.ordr.order_purchase_timestamp)) 86400
      Frequency := ((custRows view u).map fun r => r.ordr.order_id).dedup.length
      Monetary := ((custRows view u).map fun r => r.item.price).sum }

/- ## Loader (lines 24-54)

`load_data` reads the six csv files and parses the date columns of
`orders_df` that are present (`if col in orders_df.columns`, line 42 — an
absent column is skipped, not an error).  The driver wraps the call in
`try/except` and calls `st.stop()` on any exception (lines 48-54), so a
failed load leaves no tables and runs no aggregation.  `load_data` itself
never inspects key columns.  The file-level model below keeps just what this
behaviour depends on: whether each file is readable and which columns it has. -/

/-- A raw csv file: readability, its column names, and which of its columns
have been converted to datetime. -/
structure RawFile where
  readable : Bool
  cols : List String
  dateParsed : List String := []
deriving DecidableEq

/-- `pd.read_csv`: raises (here: `Except.error`) iff the file is unreadable. -/
def read_csv (f : RawFile) : Except String RawFile :=
  if f.readable then .ok { f with dateParsed := [] } else .error "unreadable file"

/-- The `date_columns` list of lines 33-39. -/
def date_columns : List String :=
  ["order_purchase_timestamp", "order_approved_at", "order_delivered_carrier_date",
   "order_delivered_customer_date", "order_estimated_delivery_date"]

/-- The six tables returned by `load_data`, in source order. -/
structure Tables where
  customers : RawFile
  orders : RawFile
  order_reviews : RawFile
  sellers : RawFile
  order_items : RawFile
  products : RawFile
deriving DecidableEq

/-- `load_data` (lines 24-45): read the six files, then convert each date
column present in `orders_df`; any read failure propagates, and nothing else
fails. -/
def load_data (customers orders reviews sellers items products : RawFile) :
    Except String Tables := do
  let c ← read_csv customers
  let o ← read_csv orders
  let r ← read_csv reviews
  let s ← read_csv sellers
  let i ← read_csv items
  let p ← read_csv products
  let o := { o with dateParsed := date_columns.filter fun col => col ∈ o.cols }
  return ⟨c, o, r, s, i, p⟩

/- ## Product cleaning (Dataset Loader, spec §4.1)

The `load_data` of `src/dashboard/streamlit_app.py` performs no Product
cleaning; the spec describes the loader of the repository's other,
near-duplicate dashboard variant, which is not under `src/`. -/

/-- Modelled from the spec: the Product-cleaning step of the Dataset Loader,
absent from `src/dashboard/streamlit_app.py` — "Drops Product rows with a
missing category_name" and, for each of the four numeric dimension columns,
"replaces missing values with the arithmetic mean of the non-missing values
in that column, computed over the full Product table" (a column with no
non-missing value at all has no mean and its nulls stay null, as
`fillna(NaN)` would leave them). -/
def clean_products (ps : List Product) : List Product :=
  let wm := mean? (ps.filterMap fun p => p.product_weight_g)
  let lm := mean? (ps.filterMap fun p => p.product_length_cm)
  let hm := mean? (ps.filterMap fun p => p.product_height_cm)
  let dm := mean? (ps.filterMap fun p => p.product_width_cm)
  (ps.filter fun p => p.product_category_name ≠ none).map fun p =>
    { p with
      product_weight_g := p.product_weight_g.or wm
      product_length_cm := p.product_length_cm.or lm
      product_height_cm := p.product_height_cm.or hm
      product_width_cm := p.product_width_cm.or dm }

/- ## Review fan-out (implicit behaviour of the left join of line 69) -/

/-- Number of review rows attached to one order id. -/
def reviewCount (reviews : List Review) (oid : String) : Nat :=
  (reviews.filter fun v => v.order_id = oid).length

/-- Fan-out factor of the left join with reviews: an order with no review
keeps its single row, an order with `k ≥ 1` review rows is duplicated `k`
times. -/
def repFactor (reviews : List Review) (oid : String) : Nat :=
  max 1 (reviewCount reviews oid)

/-- The category view built WITHOUT the reviews join: what the category sums
would see if reviews did not fan rows out (every score column null). -/
def plainCatView (items : List OrderItem) (orders : List Order)
    (products : List Product) : List CatRow :=
  leftJoinProducts ((mergeItemsOrders items orders).map fun r => (r.1, r.2, none))
    products

/-- Number of matched products of one item that carry category `c` (0 when
the item's product is missing, whose view row then has a null category). -/
def catMatchCount (products : List Product) (c : String) (it : OrderItem) : Nat :=
  ((products.filter fun p => p.product_id = it.product_id).filter
    fun p => p.product_category_name = some c).length

/- ## Concrete example data (used by the witnesses) -/

/-- Two orders of one physical customer. -/
def exOrders : List Order :=
  [⟨"O1", "CU1", 1000, some 200000⟩, ⟨"O2", "CU1", 90000, none⟩]

/-- Three line items: two on order O1, one on order O2. -/
def exItems : List OrderItem :=
  [⟨"O1", "P1", "S1", 10⟩, ⟨"O1", "P2", "S1", 20⟩, ⟨"O2", "P1", "S2", 5⟩]

/-- One physical customer appearing under one per-order id. -/
def exCustomers : List Customer := [⟨"CU1", "C1"⟩]

/-- Two products of the category "toys" (claim C2's example). -/
def exProducts : List Product :=
  [⟨"P1", some "toys", some 100, none, some 10, some 10⟩,
   ⟨"P2", some "toys", none, some 20, some 10, some 10⟩]

/-- Orders for the C2 example: one order per line item, no reviews. -/
def exOrdersC2 : List Order :=
  [⟨"O1", "CU1", 1000, none⟩, ⟨"O2", "CU2", 2000, none⟩]

/-- The C2 example's line items: prices 9.99 and 14.99. -/
def exItemsC2 : List OrderItem :=
  [⟨"O1", "P1", "S1", 999/100⟩, ⟨"O2", "P2", "S1", 1499/100⟩]

/-- The category view of the C2 example. -/
def exCatView : List CatRow := categoryView exItemsC2 exOrdersC2 [] exProducts

/-- The RFM view of the C3 example. -/
def exRfmView : List RfmRow := rfmView exOrders exItems exCustomers

/-- Two sellers, one with a state, one with a null state. -/
def exSellers : List Seller := [⟨"S1", some "SP"⟩, ⟨"S2", none⟩]

/-- The delivery view of the C4/C7 examples: S1's rows are the two O1 items
(delivered order), S2's row is the O2 item (undelivered). -/
def exDelView : List DelRow := logisticsView exItems exOrders exSellers

/-- Sellers for the C7 witness: every "RJ" row will have a null delivery date. -/
def exSellersC7 : List Seller := [⟨"S1", some "SP"⟩, ⟨"S2", some "RJ"⟩]

/-- Delivery view in which state "RJ" has only null delivery times. -/
def exDelViewC7 : List DelRow := logisticsView exItems exOrders exSellersC7

/-- Products with some null dimensions for the C1 witness. -/
def exProductsC1 : List Product :=
  [⟨"P1", some "toys", some 100, none, some 10, some 10⟩,
   ⟨"P2", some "toys", none, some 20, some 10, some 10⟩,
   ⟨"P3", none, some 50, some 30, none, some 4⟩]

/-- The first row of the cleaned example product table (length imputed to the
column mean 25). -/
def exCleanRow1 : Product :=
  { product_id := "P1", product_category_name := some "toys",
    product_weight_g := some 100, product_length_cm := some 25,
    product_height_cm := some 10, product_width_cm := some 10 }

/-- The second row of the cleaned example product table (weight imputed to the
column mean 75). -/
def exCleanRow2 : Product :=
  { product_id := "P2", product_category_name := some "toys",
    product_weight_g := some 75, product_length_cm := some 20,
    product_height_cm := some 10, product_width_cm := some 10 }

/-- A readable raw file with the given columns. -/
def mkFile (cs : List String) : RawFile := ⟨true, cs, []⟩

/-- An orders file missing the `order_id` key column. -/
def exBadOrdersFile : RawFile := mkFile ["order_status"]

/- ## Generic groupby fact: mapping a row-builder over the deduplicated key
column yields exactly one row per key. -/

/-- Filtering the image of a nodup key list for one key isolates that key's row. -/
theorem filter_map_of_nodup {β : Type} (field : β → String) (f : String → β)
    (hf : ∀ c, field (f c) = c) (l : List String) (hnd : l.Nodup) (c : String)
    (hc : c ∈ l) :
    (l.map f).filter (fun r => field r = c) = [f c] := by
  induction l with
  | nil => cases hc
  | cons a t ih =>
    rw [List.map_cons, List.filter_cons]
    rcases List.mem_cons.mp hc with rfl | h
    · have hnotin : c ∉ t := (List.nodup_cons.mp hnd).1
      have htail : (t.map f).filter (fun r => field r = c) = [] := by
        rw [List.filter_eq_nil_iff]
        intro b hb
        rcases List.mem_map.mp hb with ⟨x, hx, rfl⟩
        simp only [hf, decide_eq_true_eq]
        exact fun hxc => hnotin (hxc ▸ hx)
      simp [hf, htail]
    · have hne : a ≠ c := by
        rintro rfl
        exact (List.nodup_cons.mp hnd).1 h
      have := ih (List.nodup_cons.mp hnd).2 h
      simp [hf, hne, this]

/-- C2: the category aggregation has exactly one output row per distinct
non-null category of the view; its `order_count` is the number of joined rows
of that category, its `average_rating` the mean of the non-null review scores
of those rows, and its `total_sales` the sum of `price` over those rows. -/
theorem category_performance_correct (view : List CatRow) (c : String)
    (hc : c ∈ view.filterMap fun r => r.product_category_name) :
    (category_performance view).filter (fun r => r.product_category_name = c) =
      [{ product_category_name := c
         total_sales :=
           ((view.filter fun r => r.product_category_name = some c).map
             fun r => r.item.price).sum
         average_rating :=
           mean? ((view.filter fun r => r.product_category_name = some c).filterMap
             fun r => r.review_score)
         order_count :=
           (view.filter fun r => r.product_category_name = some c).length }] := by
  unfold category_performance
  exact @filter_map_of_nodup CatPerf (fun r => r.product_category_name) _
    (fun _ => rfl) _ (List.nodup_dedup _) c (List.mem_dedup.mpr hc)

/-- Witness for C2 at the spec's example: two "toys" items priced 9.99 and
14.99 give `order_count = 2` and `total_sales = 24.98` (no reviews, so the
rating mean is undefined). -/
theorem category_performance_correct_witness :
    (category_performance exCatView).filter
        (fun r => r.product_category_name = "toys") =
      [{ product_category_name := "toys", total_sales := 2498/100,
         average_rating := none, order_count := 2 }] := by
  rw [category_performance_correct exCatView "toys" (by decide)]
  simp [exCatView, categoryView, leftJoinProducts, leftJoinReviews, mergeItemsOrders,
    scoreMatches, categoryMatches, exItemsC2, exOrdersC2, exProducts, mean?]
  norm_num

/-- A group's size equals its key's multiplicity in the key column. -/
theorem length_filter_eq_count {α : Type} (f : α → Option String) (c : String)
    (l : List α) :
    (l.filter fun a => f a = some c).length = (l.filterMap f).count c := by
  induction l with
  | nil => rfl
  | cons a t ih =>
    rw [List.filter_cons, List.filterMap_cons]
    cases hfa : f a with
    | none => simpa using ih
    | some d =>
      by_cases hdc : d = c
      · subst hdc
        simp [List.count_cons, ih]
      · simp [List.count_cons, hdc, ih]

/-- Dropping the nulls of a column keeps as many entries as there are
non-null rows. -/
theorem length_filterMap_eq {α β : Type} [DecidableEq β] (f : α → Option β) (l : List α) :
    (l.filterMap f).length = (l.filter fun a => f a ≠ none).length := by
  induction l with
  | nil => rfl
  | cons a t ih =>
    rw [List.filterMap_cons, List.filter_cons]
    cases hfa : f a with
    | none => simpa using ih
    | some d => simpa using ih

/-- C5: the `order_count` entries of the category aggregation sum to the
number of joined rows with a non-null category, and every output row's
category is a non-null category of the view — rows with a null category are
counted nowhere. -/
theorem category_order_count_total (view : List CatRow) :
    (((category_performance view).map fun p => p.order_count).sum =
      (view.filter fun r => r.product_category_name ≠ none).length) ∧
    ∀ p ∈ category_performance view,
      p.product_category_name ∈ view.filterMap fun r => r.product_category_name := by
  constructor
  · have h2 : ((category_performance view).map fun p => p.order_count) =
        (view.filterMap fun r => r.product_category_name).dedup.map
          fun c => (view.filterMap fun r => r.product_category_name).count c := by
      unfold category_performance
      rw [List.map_map]
      refine List.map_congr_left fun c _ => ?_
      show (catRows view c).length = _
      exact length_filter_eq_count (fun r => r.product_category_name) c view
    rw [h2, List.sum_map_count_dedup_eq_length]
    exact length_filterMap_eq (fun r => r.product_category_name) view
  · intro p hp
    unfold category_performance at hp
    rcases List.mem_map.mp hp with ⟨c, hc, rfl⟩
    exact List.mem_dedup.mp hc

/-- C4: the delivery aggregation has exactly one output row per distinct
non-null seller state of the view; its `total_orders` is the number of the
state's line-item rows, and its average is the mean of the floored whole-day
delivery times of the state's rows with a non-null delivery date (null
delivery dates are excluded from the mean). -/
theorem state_delivery_performance_correct (view : List DelRow) (s : String)
    (hs : s ∈ view.filterMap fun r => r.seller_state) :
    (state_delivery_performance view).filter (fun p => p.seller_state = s) =
      [{ seller_state := s
         average_delivery_time := mean?
           (((view.filter fun r => r.seller_state = some s).filterMap
             fun r => r.order_delivered_customer_date.map fun d =>
               Int.fdiv (d - r.order_purchase_timestamp) 86400).map fun n : Int => (n : ℚ))
         total_orders := (view.filter fun r => r.seller_state = some s).length }] := by
  unfold state_delivery_performance
  exact @filter_map_of_nodup StatePerf (fun p => p.seller_state)
    (fun t => { seller_state := t
                average_delivery_time := mean?
                  (((stateRows view t).filterMap delivery_time_days).map fun n : Int => (n : ℚ))
                total_orders := (stateRows view t).length })
    (fun _ => rfl) _ (List.nodup_dedup _) s (List.mem_dedup.mpr hs)

/-- Witness for C4: in the example view, state "SP" has two delivered items
(both 199000 seconds ≈ 2.3 days after purchase, floored to 2 days) and
state "RJ" is absent, hence the one "SP" row. -/
theorem state_delivery_performance_correct_witness :
    (state_delivery_performance exDelView).filter
        (fun p => p.seller_state = "SP") =
      [{ seller_state := "SP", average_delivery_time := some 2,
         total_orders := 2 }] := by
  rw [state_delivery_performance_correct exDelView "SP" (by decide)]
  simp [exDelView, logisticsView, mergeItemsOrders, stateMatches, exItems, exOrders,
    exSellers, mean?, delivery_time_days, stateRows]

/-- C7: a state all of whose rows lack a delivery date gets an undefined
(`none`) average delivery time, never zero. -/
theorem state_all_null_average_undefined (view : List DelRow) (s : String)
    (hnull : ∀ r ∈ view, r.seller_state = some s →
      r.order_delivered_customer_date = none) :
    ∀ p ∈ state_delivery_performance view, p.seller_state = s →
      p.average_delivery_time = none ∧ p.average_delivery_time ≠ some 0 := by
  intro p hp hps
  have hscores : (stateRows view s).filterMap delivery_time_days = [] := by
    rw [List.filterMap_eq_nil_iff]
    intro r hr
    have hrv : r ∈ view := List.filter_subset' _ hr
    have hstate : r.seller_state = some s := by
      have := (List.mem_filter.mp hr).2
      simpa using this
    rw [delivery_time_days, hnull r hrv hstate]
    rfl
  unfold state_delivery_performance at hp
  rcases List.mem_map.mp hp with ⟨c, hc, rfl⟩
  have hcs : c = s := hps
  subst hcs
  have havg : mean? (((stateRows view c).filterMap delivery_time_days).map
      fun n : Int => (n : ℚ)) = none := by
    rw [hscores]
    rfl
  exact ⟨havg, by rw [havg]; simp⟩

/-- Witness for C7: state "RJ" of the example has a single, undelivered row,
and its reported average is `none`, not zero. -/
theorem state_all_null_average_undefined_witness :
    ({ seller_state := "RJ", average_delivery_time := none,
       total_orders := 1 } : StatePerf).average_delivery_time = none ∧
    ({ seller_state := "RJ", average_delivery_time := none,
       total_orders := 1 } : StatePerf).average_delivery_time ≠ some 0 :=
  state_all_null_average_undefined exDelViewC7 "RJ" (by decide) _ (by decide) (by decide)

/-- Every element is bounded by the list maximum. -/
theorem le_maxInt (l : List Int) : ∀ x ∈ l, x ≤ maxInt l := by
  induction l with
  | nil => intro x hx; cases hx
  | cons a t ih =>
    intro x hx
    cases t with
    | nil =>
      rcases List.mem_cons.mp hx with rfl | hx
      · simp [maxInt]
      · cases hx
    | cons b ts =>
      simp only [maxInt]
      rcases List.mem_cons.mp hx with rfl | hx
      · exact le_max_left _ _
      · exact le_trans (ih x hx) (le_max_right _ _)

/-- The maximum of a nonempty list is one of its elements. -/
theorem maxInt_mem (l : List Int) (h : l ≠ []) : maxInt l ∈ l := by
  induction l with
  | nil => exact absurd rfl h
  | cons a t ih =>
    cases t with
    | nil => simp [maxInt]
    | cons b ts =>
      simp only [maxInt]
      rcases max_choice a (maxInt (b :: ts)) with h1 | h1 <;> rw [h1]
      · exact List.mem_cons_self _ _
      · exact List.mem_cons_of_mem _ (ih (by simp))

/-- C3: the RFM aggregation has exactly one output row per distinct
`customer_unique_id` of the view; its `Recency` is the floored whole-day
difference between the reference instant (global maximum purchase timestamp
plus one day) and the customer's most recent purchase, its `Frequency` the
number of distinct order ids of the customer's rows (multi-item orders
deduplicated), and its `Monetary` the sum of the prices of all the customer's
line items. -/
theorem rfm_table_correct (view : List RfmRow) (u : String)
    (hu : u ∈ view.map fun r => r.cust.customer_unique_id) :
    (rfm_table view).filter (fun p => p.customer_unique_id = u) =
      [{ customer_unique_id := u
         Recency := Int.fdiv
           ((maxInt (view.map fun r => r.ordr.order_purchase_timestamp) + 86400) -
             maxInt ((view.filter fun r => r.cust.customer_unique_id = u).map
               fun r => r.ordr.order_purchase_timestamp)) 86400
         Frequency := ((view.filter fun r => r.cust.customer_unique_id = u).map
           fun r => r.ordr.order_id).dedup.length
         Monetary := ((view.filter fun r => r.cust.customer_unique_id = u).map
           fun r => r.item.price).sum }] := by
  unfold rfm_table
  exact @filter_map_of_nodup RfmRecord (fun p => p.customer_unique_id)
    (fun t => { customer_unique_id := t
                Recency := Int.fdiv (reference_date view -
                  maxInt ((custRows view t).map fun r => r.ordr.order_purchase_timestamp)) 86400
                Frequency := ((custRows view t).map fun r => r.ordr.order_id).dedup.length
                Monetary := ((custRows view t).map fun r => r.item.price).sum })
    (fun _ => rfl) _ (List.nodup_dedup _) u (List.mem_dedup.mpr hu)

/-- Witness for C3 at the spec's example: customer "C1" with three items in
two orders priced 10, 20 and 5 gets `Frequency = 2` and `Monetary = 35` (and
`Recency = 1`, its last purchase being the global maximum). -/
theorem rfm_table_correct_witness :
    (rfm_table exRfmView).filter (fun p => p.customer_unique_id = "C1") =
      [{ customer_unique_id := "C1", Recency := 1, Frequency := 2,
         Monetary := 35 }] := by
  rw [rfm_table_correct exRfmView "C1" (by decide)]
  simp [exRfmView, rfmView, mergeOrdersItems, exOrders, exItems, exCustomers,
    maxInt, reference_date]
  norm_num [Int.fdiv]

/-- Evaluation of the RFM aggregation on the example view: one physical
customer, latest purchase at the global maximum, two distinct orders, 35 in
total spend. -/
theorem exRfm_table_eval :
    rfm_table exRfmView =
      [{ customer_unique_id := "C1", Recency := 1, Frequency := 2,
         Monetary := 35 }] := by
  simp [rfm_table, exRfmView, rfmView, mergeOrdersItems, exOrders, exItems,
    exCustomers, custRows, reference_date, maxInt]
  norm_num [Int.fdiv]

/-- The `Recency` of every RFM output row is at least one day: the reference
instant exceeds the customer's latest purchase by at least the one added day,
and flooring a quantity ≥ 1 day to whole days keeps it ≥ 1. -/
theorem rfm_recency_lb (view : List RfmRow) (rec : RfmRecord)
    (h : rec ∈ rfm_table view) : 1 ≤ rec.Recency := by
  unfold rfm_table at h
  rcases List.mem_map.mp h with ⟨u, hu, rfl⟩
  have hu2 : u ∈ view.map fun r => r.cust.customer_unique_id := List.mem_dedup.mp hu
  rcases List.mem_map.mp hu2 with ⟨r0, hr0, hr0u⟩
  have hr0c : r0 ∈ custRows view u := by
    unfold custRows
    exact List.mem_filter.mpr ⟨hr0, by simp [hr0u]⟩
  have hne : ((custRows view u).map fun r => r.ordr.order_purchase_timestamp) ≠ [] := by
    intro hemp
    rw [List.map_eq_nil_iff] at hemp
    rw [hemp] at hr0c
    cases hr0c
  have hmx : maxInt ((custRows view u).map fun r => r.ordr.order_purchase_timestamp)
      ∈ ((custRows view u).map fun r => r.ordr.order_purchase_timestamp) :=
    maxInt_mem _ hne
  have hsub : ((custRows view u).map fun r => r.ordr.order_purchase_timestamp)
      ⊆ (view.map fun r => r.ordr.order_purchase_timestamp) :=
    List.map_subset _ (List.filter_subset' _)
  have hle : maxInt ((custRows view u).map fun r => r.ordr.order_purchase_timestamp)
      ≤ maxInt (view.map fun r => r.ordr.order_purchase_timestamp) :=
    le_maxInt _ _ (hsub hmx)
  show 1 ≤ Int.fdiv (reference_date view -
    maxInt ((custRows view u).map fun r => r.ordr.order_purchase_timestamp)) 86400
  rw [Int.fdiv_eq_ediv _ (by norm_num)]
  have h86 : (86400 : Int) ≤ reference_date view -
      maxInt ((custRows view u).map fun r => r.ordr.order_purchase_timestamp) := by
    unfold reference_date
    omega
  calc (1 : Int) = 86400 / 86400 := by norm_num
    _ ≤ _ := Int.ediv_le_ediv (by norm_num) h86

/-- C6: `Recency` is never negative: the reference instant is strictly after
every observed purchase timestamp by construction. -/
theorem rfm_recency_nonneg (view : List RfmRow) (rec : RfmRecord)
    (h : rec ∈ rfm_table view) : 0 ≤ rec.Recency :=
  le_trans zero_le_one (rfm_recency_lb view rec h)

/-- Witness for C6: the example's single output record has Recency 1 ≥ 0. -/
theorem rfm_recency_nonneg_witness :
    (0 : Int) ≤
      ({ customer_unique_id := "C1", Recency := 1, Frequency := 2,
         Monetary := 35 } : RfmRecord).Recency :=
  rfm_recency_nonneg exRfmView _
    (by rw [exRfm_table_eval]; exact List.mem_singleton.mpr rfl)

/-- C10: `Recency` is in fact always ≥ 1 — even the customer holding the
globally most recent purchase gets a whole-day difference of exactly the one
added day, so `Recency = 0` never occurs. -/
theorem rfm_recency_ge_one (view : List RfmRow) (rec : RfmRecord)
    (h : rec ∈ rfm_table view) : 1 ≤ rec.Recency :=
  rfm_recency_lb view rec h

/-- Witness for C10: the example's customer made the most recent purchase of
the whole view and still has Recency 1, not 0. -/
theorem rfm_recency_ge_one_witness :
    (1 : Int) ≤
      ({ customer_unique_id := "C1", Recency := 1, Frequency := 2,
         Monetary := 35 } : RfmRecord).Recency :=
  rfm_recency_ge_one exRfmView _
    (by rw [exRfm_table_eval]; exact List.mem_singleton.mpr rfl)

/-- The mean of a column with at least one non-missing value is defined. -/
theorem mean?_isSome {xs : List ℚ} (h : xs ≠ []) : mean? xs ≠ none := by
  unfold mean?
  rw [if_neg (by simpa using h)]
  simp

/-- `fillna` case analysis: filling with a defined fallback leaves no null,
replaces a null by the fallback, and keeps a non-null value. -/
theorem or_fill_cases (v m : Option ℚ) (hm : m ≠ none) :
    v.or m ≠ none ∧ (v = none → v.or m = m) ∧ (v ≠ none → v.or m = v) := by
  cases v with
  | none => exact ⟨hm, fun _ => rfl, fun hc => absurd rfl hc⟩
  | some a => exact ⟨by simp, fun hc => Option.noConfusion hc, fun _ => rfl⟩

/-- C1: provided each dimension column has at least one non-missing value,
the loader's product cleaning retains exactly the rows with a non-null
category, and on every retained row the category and all four dimensions are
non-null, each dimension keeping its original value when present and being
the column's mean of non-missing values when it was missing. -/
theorem clean_products_correct (ps : List Product)
    (hw : ps.filterMap (fun p => p.product_weight_g) ≠ [])
    (hl : ps.filterMap (fun p => p.product_length_cm) ≠ [])
    (hh : ps.filterMap (fun p => p.product_height_cm) ≠ [])
    (hd : ps.filterMap (fun p => p.product_width_cm) ≠ []) :
    ((clean_products ps).length =
      (ps.filter fun p => p.product_category_name ≠ none).length) ∧
    ∀ p ∈ clean_products ps,
      p.product_category_name ≠ none ∧
      p.product_weight_g ≠ none ∧ p.product_length_cm ≠ none ∧
      p.product_height_cm ≠ none ∧ p.product_width_cm ≠ none ∧
      ∃ q ∈ ps, q.product_category_name = p.product_category_name ∧
        q.product_id = p.product_id ∧
        (q.product_weight_g = none →
          p.product_weight_g = mean? (ps.filterMap fun x => x.product_weight_g)) ∧
        (q.product_weight_g ≠ none → p.product_weight_g = q.product_weight_g) ∧
        (q.product_length_cm = none →
          p.product_length_cm = mean? (ps.filterMap fun x => x.product_length_cm)) ∧
        (q.product_length_cm ≠ none → p.product_length_cm = q.product_length_cm) ∧
        (q.product_height_cm = none →
          p.product_height_cm = mean? (ps.filterMap fun x => x.product_height_cm)) ∧
        (q.product_height_cm ≠ none → p.product_height_cm = q.product_height_cm) ∧
        (q.product_width_cm = none →
          p.product_width_cm = mean? (ps.filterMap fun x => x.product_width_cm)) ∧
        (q.product_width_cm ≠ none → p.product_width_cm = q.product_width_cm) := by
  constructor
  · unfold clean_products
    simp
  · intro p hp
    simp only [clean_products] at hp
    rcases List.mem_map.mp hp with ⟨q, hq, rfl⟩
    have hqv : q ∈ ps := List.filter_subset' _ hq
    have hqc : q.product_category_name ≠ none := by
      have := (List.mem_filter.mp hq).2
      simpa using this
    obtain ⟨hw1, hw2, hw3⟩ :=
      or_fill_cases q.product_weight_g _ (mean?_isSome hw)
    obtain ⟨hl1, hl2, hl3⟩ :=
      or_fill_cases q.product_length_cm _ (mean?_isSome hl)
    obtain ⟨hh1, hh2, hh3⟩ :=
      or_fill_cases q.product_height_cm _ (mean?_isSome hh)
    obtain ⟨hd1, hd2, hd3⟩ :=
      or_fill_cases q.product_width_cm _ (mean?_isSome hd)
    exact ⟨hqc, hw1, hl1, hh1, hd1,
      q, hqv, rfl, rfl, hw2, hw3, hl2, hl3, hh2, hh3, hd2, hd3⟩

/-- Evaluation of the product cleaning on the example table: the
null-category row P3 is dropped, P1's missing length becomes the column mean
25 and P2's missing weight the column mean 75. -/
theorem exClean_products_eval :
    clean_products exProductsC1 = [exCleanRow1, exCleanRow2] := by
  simp [clean_products, exProductsC1, mean?, exCleanRow1, exCleanRow2]
  norm_num

/-- Witness for C1: the first retained row of the concrete product table has
a non-null category and fully imputed dimensions, its missing length having
become the column mean. -/
theorem clean_products_correct_witness :
    exCleanRow1.product_category_name ≠ none ∧
    exCleanRow1.product_weight_g ≠ none ∧ exCleanRow1.product_length_cm ≠ none ∧
    exCleanRow1.product_height_cm ≠ none ∧ exCleanRow1.product_width_cm ≠ none ∧
    ∃ q ∈ exProductsC1,
      q.product_category_name = exCleanRow1.product_category_name ∧
      q.product_id = exCleanRow1.product_id ∧
      (q.product_weight_g = none → exCleanRow1.product_weight_g =
        mean? (exProductsC1.filterMap fun x => x.product_weight_g)) ∧
      (q.product_weight_g ≠ none →
        exCleanRow1.product_weight_g = q.product_weight_g) ∧
      (q.product_length_cm = none → exCleanRow1.product_length_cm =
        mean? (exProductsC1.filterMap fun x => x.product_length_cm)) ∧
      (q.product_length_cm ≠ none →
        exCleanRow1.product_length_cm = q.product_length_cm) ∧
      (q.product_height_cm = none → exCleanRow1.product_height_cm =
        mean? (exProductsC1.filterMap fun x => x.product_height_cm)) ∧
      (q.product_height_cm ≠ none →
        exCleanRow1.product_height_cm = q.product_height_cm) ∧
      (q.product_width_cm = none → exCleanRow1.product_width_cm =
        mean? (exProductsC1.filterMap fun x => x.product_width_cm)) ∧
      (q.product_width_cm ≠ none →
        exCleanRow1.product_width_cm = q.product_width_cm) :=
  (clean_products_correct exProductsC1
    (by decide) (by decide) (by decide) (by decide)).2 exCleanRow1
    (by rw [exClean_products_eval]; exact List.mem_cons_self _ _)

/-- C8 counterexample: with every file readable but the orders file missing
the `order_id` key column, `load_data` succeeds — a missing required key
column does not make loading fail (the error would surface only later, when
a join is attempted), contradicting the claim as stated. -/
theorem load_data_missing_key_still_ok :
    (load_data (mkFile ["customer_id", "customer_unique_id"]) exBadOrdersFile
        (mkFile ["order_id", "review_score"]) (mkFile ["seller_id", "seller_state"])
        (mkFile ["order_id", "product_id", "seller_id", "price"])
        (mkFile ["product_id", "product_category_name"])).isOk = true ∧
    "order_id" ∉ exBadOrdersFile.cols := by
  decide

/-- C8 amended: loading fails exactly when one of the six source files is
unreadable; on failure no table is produced (the result carries no `Tables`
value, and the driver stops the app before any aggregation), while key
columns are never checked at load time. -/
theorem load_data_ok_iff (c o r s i p : RawFile) :
    (load_data c o r s i p).isOk = true ↔
      (c.readable = true ∧ o.readable = true ∧ r.readable = true ∧
       s.readable = true ∧ i.readable = true ∧ p.readable = true) := by
  obtain ⟨b1, l1, d1⟩ := c
  obtain ⟨b2, l2, d2⟩ := o
  obtain ⟨b3, l3, d3⟩ := r
  obtain ⟨b4, l4, d4⟩ := s
  obtain ⟨b5, l5, d5⟩ := i
  obtain ⟨b6, l6, d6⟩ := p
  cases b1 <;> cases b2 <;> cases b3 <;> cases b4 <;> cases b5 <;> cases b6 <;>
    simp [load_data, read_csv, Except.isOk, Except.toBool, Bind.bind, Except.bind,
      Pure.pure, Except.pure]

/-- Summing a constant over a list. -/
theorem sum_map_const {α M : Type} [AddCommMonoid M] (l : List α) (a : M) :
    (l.map fun _ => a).sum = l.length • a := by
  induction l with
  | nil => simp
  | cons x t ih =>
    rw [List.map_cons, List.sum_cons, ih, List.length_cons, succ_nsmul, add_comm]

/-- Counting by summing ones. -/
theorem length_eq_sum_ones {α : Type} (l : List α) :
    (l.map fun _ => (1 : ℕ)).sum = l.length := by
  simp

/-- One row's contribution to a category after the products join: its
matched-product multiplicity times its item's value. -/
theorem catMatches_contrib {M : Type} [AddCommMonoid M] (products : List Product)
    (c : String) (v : OrderItem → M) (t : OrderItem × Order × Option ℚ) :
    (((categoryMatches products t).filter fun r =>
        r.product_category_name = some c).map fun r => v r.item).sum =
      catMatchCount products c t.1 • v t.1 := by
  unfold categoryMatches catMatchCount
  by_cases h : (products.filter fun p => p.product_id = t.1.product_id).isEmpty
  · rw [if_pos h, List.isEmpty_iff.mp h]
    simp
  · rw [if_neg h, List.filter_map, List.map_map]
    simp only [Function.comp_def]
    rw [sum_map_const]

/-- Category totals distribute over the products join. -/
theorem leftJoinProducts_filter_sum {M : Type} [AddCommMonoid M]
    (products : List Product) (c : String) (v : OrderItem → M) :
    ∀ L : List (OrderItem × Order × Option ℚ),
      (((leftJoinProducts L products).filter fun r =>
          r.product_category_name = some c).map fun r => v r.item).sum =
        (L.map fun t => catMatchCount products c t.1 • v t.1).sum := by
  intro L
  unfold leftJoinProducts
  induction L with
  | nil => rfl
  | cons t L ih =>
    rw [List.flatMap_cons, List.filter_append, List.map_append, List.sum_append,
      List.map_cons, List.sum_cons, ih, catMatches_contrib]

/-- One row's review-join expansion contributes its fan-out factor times the
row's value. -/
theorem scoreMatches_sum {M : Type} [AddCommMonoid M] (reviews : List Review)
    (g : OrderItem → M) (r : OrderItem × Order) :
    ((scoreMatches reviews r).map fun t => g t.1).sum =
      repFactor reviews r.1.order_id • g r.1 := by
  unfold scoreMatches repFactor reviewCount
  by_cases h : (reviews.filter fun v => v.order_id = r.1.order_id).isEmpty
  · rw [if_pos h]
    rw [show (reviews.filter fun v => v.order_id = r.1.order_id) = [] from
      List.isEmpty_iff.mp h]
    simp
  · rw [if_neg h, List.map_map]
    have h1 : 0 < (reviews.filter fun v => v.order_id = r.1.order_id).length :=
      List.length_pos.mpr (by simpa using h)
    simp only [Function.comp_def]
    rw [sum_map_const]
    congr 1
    omega

/-- The review left join multiplies each (item, order) row's value by the
order's fan-out factor. -/
theorem leftJoinReviews_sum {M : Type} [AddCommMonoid M] (reviews : List Review)
    (g : OrderItem → M) :
    ∀ rows : List (OrderItem × Order),
      ((leftJoinReviews rows reviews).map fun t => g t.1).sum =
        (rows.map fun r => repFactor reviews r.1.order_id • g r.1).sum := by
  intro rows
  unfold leftJoinReviews
  induction rows with
  | nil => rfl
  | cons r rows ih =>
    rw [List.flatMap_cons, List.map_append, List.sum_append, List.map_cons,
      List.sum_cons, ih, scoreMatches_sum]

/-- C9: the left join with reviews duplicates each line-item row once per
review row of its order (`repFactor`; an order with no review keeps one row),
so a category's `total_sales` adds each item's price once per duplicate and
its `order_count` counts each item once per duplicate; the fanned-out sums
coincide with the plain (review-free) ones when every order has at most one
review. -/
theorem review_fanout (items : List OrderItem) (orders : List Order)
    (reviews : List Review) (products : List Product) (c : String) :
    ((leftJoinReviews (mergeItemsOrders items orders) reviews).length =
      ((mergeItemsOrders items orders).map fun r =>
        repFactor reviews r.1.order_id).sum) ∧
    (((catRows (categoryView items orders reviews products) c).map
        fun r => r.item.price).sum =
      ((catRows (plainCatView items orders products) c).map fun r =>
        (repFactor reviews r.item.order_id : ℚ) * r.item.price).sum) ∧
    ((catRows (categoryView items orders reviews products) c).length =
      ((catRows (plainCatView items orders products) c).map fun r =>
        repFactor reviews r.item.order_id).sum) ∧
    ((∀ oid, reviewCount reviews oid ≤ 1) →
      ((catRows (categoryView items orders reviews products) c).map
          fun r => r.item.price).sum =
        ((catRows (plainCatView items orders products) c).map
          fun r => r.item.price).sum) := by
  have h1 : (leftJoinReviews (mergeItemsOrders items orders) reviews).length =
      ((mergeItemsOrders items orders).map fun r =>
        repFactor reviews r.1.order_id).sum := by
    have e1 := leftJoinReviews_sum reviews (fun _ => (1 : ℕ))
      (mergeItemsOrders items orders)
    rw [length_eq_sum_ones] at e1
    simpa [smul_eq_mul] using e1
  have h2 : ((catRows (categoryView items orders reviews products) c).map
        fun r => r.item.price).sum =
      ((catRows (plainCatView items orders products) c).map fun r =>
        (repFactor reviews r.item.order_id : ℚ) * r.item.price).sum := by
    refine (leftJoinProducts_filter_sum products c (fun it => it.price)
      (leftJoinReviews (mergeItemsOrders items orders) reviews)).trans ?_
    refine (leftJoinReviews_sum reviews
      (fun it => catMatchCount products c it • it.price)
      (mergeItemsOrders items orders)).trans ?_
    have e5 := leftJoinProducts_filter_sum products c
      (fun it => (repFactor reviews it.order_id : ℚ) * it.price)
      ((mergeItemsOrders items orders).map
        fun r : OrderItem × Order => (r.1, r.2, (none : Option ℚ)))
    refine Eq.trans ?_ e5.symm
    rw [List.map_map]
    refine congrArg List.sum (List.map_congr_left fun r _ => ?_)
    show repFactor reviews r.1.order_id •
        (catMatchCount products c r.1 • r.1.price) =
      catMatchCount products c r.1 •
        ((repFactor reviews r.1.order_id : ℚ) * r.1.price)
    rw [← nsmul_eq_mul, smul_comm]
  have h3 : (catRows (categoryView items orders reviews products) c).length =
      ((catRows (plainCatView items orders products) c).map fun r =>
        repFactor reviews r.item.order_id).sum := by
    refine Eq.trans ((length_eq_sum_ones _).symm) ?_
    refine (leftJoinProducts_filter_sum products c (fun _ => (1 : ℕ))
      (leftJoinReviews (mergeItemsOrders items orders) reviews)).trans ?_
    refine (leftJoinReviews_sum reviews
      (fun it => catMatchCount products c it • (1 : ℕ))
      (mergeItemsOrders items orders)).trans ?_
    have e6 := leftJoinProducts_filter_sum products c
      (fun it => repFactor reviews it.order_id)
      ((mergeItemsOrders items orders).map
        fun r : OrderItem × Order => (r.1, r.2, (none : Option ℚ)))
    refine Eq.trans ?_ e6.symm
    rw [List.map_map]
    refine congrArg List.sum (List.map_congr_left fun r _ => ?_)
    show repFactor reviews r.1.order_id • (catMatchCount products c r.1 • 1) =
      catMatchCount products c r.1 • repFactor reviews r.1.order_id
    simp [smul_eq_mul, mul_comm]
  refine ⟨h1, h2, h3, fun hone => ?_⟩
  have hrep : ∀ oid, repFactor reviews oid = 1 := by
    intro oid
    have := hone oid
    unfold repFactor
    omega
  rw [h2]
  refine congrArg List.sum (List.map_congr_left fun r _ => ?_)
  rw [hrep, Nat.cast_one, one_mul]

end Dashboard
